import Mathlib

/-!
Verification development for the med-flow hospital resource system
(`med_agent/customTools.py`).  The Python functions are shallowly embedded
as executable Lean definitions: the process-wide mutable `HOSPITAL_STATE`
dictionary becomes an explicit `HospitalState` value threaded through the
mutating operations, Python ints become `Int`/`Nat`, and Python floats
(vital signs, percentage computations) are embedded as exact rationals.
Python dictionaries with string keys become association lists preserving
insertion order; updates replace the value at the first matching key, as a
Python dict update does.  Timestamps produced by `datetime.now()` are
modelled by an explicit `now : String` parameter.
-/

/-- Tests whether the first character list is an initial segment of the second
(helper for Python's substring operator `in`). -/
def charsStartWith : List Char → List Char → Bool
  | [], _ => true
  | _ :: _, [] => false
  | a :: as_, b :: bs => a == b && charsStartWith as_ bs

/-- Tests whether the first character list occurs contiguously inside the
second: the embedding of Python's substring test `needle in hay`. -/
def charsContain (needle : List Char) : List Char → Bool
  | [] => needle.isEmpty
  | c :: rest => charsStartWith needle (c :: rest) || charsContain needle rest

/-- One individually identified bed (an entry of `HOSPITAL_STATE['icu_beds']`
or `HOSPITAL_STATE['ed_trauma_bays']`).  Keys that a given Python bed dict
lacks are modelled as `none`. -/
structure Bed where
  status : String
  patient : Option String
  priority : Option String
  reserved_at : Option String
  expected_discharge : Option String
deriving DecidableEq, Repr

/-- A countable equipment pool: `{'available': .., 'total': ..}`. -/
structure Pool where
  available : Int
  total : Int
deriving DecidableEq, Repr

/-- An ED physician record. -/
structure Physician where
  name : String
  specialty : String
  current_load : Int
deriving DecidableEq, Repr

/-- An ED nurse record. -/
structure Nurse where
  name : String
  current_patients : Int
deriving DecidableEq, Repr

/-- A specialist record (cardiologist / trauma surgeon). -/
structure Specialist where
  name : String
  available : Bool
deriving DecidableEq, Repr

/-- The `ed_treatment_rooms` counters. -/
structure Rooms where
  available : Int
  total : Int
  occupied : Int
deriving DecidableEq, Repr

/-- The `HOSPITAL_STATE['equipment']` dictionary.  It always holds exactly
the three keys `ventilators`, `cardiac_monitors`, `defibrillators` (no code
path adds or removes a key), so it is embedded as a record with one field
per key. -/
structure Equipment where
  ventilators : Pool
  cardiac_monitors : Pool
  defibrillators : Pool
deriving DecidableEq, Repr

/-- The whole process-wide `HOSPITAL_STATE` dictionary. -/
structure HospitalState where
  icu_beds : List (String × Bed)
  ed_trauma_bays : List (String × Bed)
  ed_treatment_rooms : Rooms
  ed_physicians : List Physician
  ed_nurses : List Nurse
  cardiologists : List Specialist
  trauma_surgeons : List Specialist
  equipment : Equipment
deriving DecidableEq, Repr

/-- The initial value of `HOSPITAL_STATE` as written in the source. -/
def initialHospitalState : HospitalState where
  icu_beds :=
    [ ("ICU-1", ⟨"occupied", some "P001", none, none, some "2024-10-30T14:00"⟩),
      ("ICU-2", ⟨"occupied", some "P002", none, none, some "2024-10-30T08:00"⟩),
      ("ICU-3", ⟨"available", none, none, none, none⟩),
      ("ICU-4", ⟨"available", none, none, none, none⟩) ]
  ed_trauma_bays :=
    [ ("TB-1", ⟨"occupied", some "P003", none, none, none⟩),
      ("TB-2", ⟨"available", none, none, none, none⟩),
      ("TB-3", ⟨"available", none, none, none, none⟩) ]
  ed_treatment_rooms := ⟨5, 15, 10⟩
  ed_physicians :=
    [ ⟨"Dr. Smith", "Emergency Medicine", 3⟩,
      ⟨"Dr. Jones", "Emergency Medicine", 2⟩ ]
  ed_nurses := [ ⟨"RN Johnson", 4⟩, ⟨"RN Williams", 3⟩, ⟨"RN Davis", 2⟩ ]
  cardiologists := [ ⟨"Dr. Patel", true⟩ ]
  trauma_surgeons := [ ⟨"Dr. Martinez", true⟩ ]
  equipment := ⟨⟨2, 7⟩, ⟨8, 15⟩, ⟨6, 8⟩⟩

/-- Dictionary lookup on a bed map (`bed_id in dct` / `dct[bed_id]`). -/
def lookupBed : List (String × Bed) → String → Option Bed
  | [], _ => none
  | (k, b) :: rest, bid => if k = bid then some b else lookupBed rest bid

/-- Dictionary value replacement `dct[bed_id] = bed`: replaces the value at
the first occurrence of the key, preserving position, as Python does. -/
def updateBed : List (String × Bed) → String → Bed → List (String × Bed)
  | [], _, _ => []
  | (k, b) :: rest, bid, nb =>
    if k = bid then (k, nb) :: rest else (k, b) :: updateBed rest bid nb

/-- Lookup into the fixed three-key `equipment` dictionary. -/
def lookupEquip (e : Equipment) (ty : String) : Option Pool :=
  if ty = "ventilators" then some e.ventilators
  else if ty = "cardiac_monitors" then some e.cardiac_monitors
  else if ty = "defibrillators" then some e.defibrillators
  else none

/-- Write into the fixed three-key `equipment` dictionary. -/
def setEquip (e : Equipment) (ty : String) (p : Pool) : Equipment :=
  if ty = "ventilators" then { e with ventilators := p }
  else if ty = "cardiac_monitors" then { e with cardiac_monitors := p }
  else if ty = "defibrillators" then { e with defibrillators := p }
  else e

/-- The bed record that `reserve_bed` finds for a bed id, looking in
`icu_beds` first and then `ed_trauma_bays`, exactly as the source's
membership tests do. -/
def bedLookupState (s : HospitalState) (bid : String) : Option Bed :=
  match lookupBed s.icu_beds bid with
  | some b => some b
  | none => lookupBed s.ed_trauma_bays bid

/-- The department a bed id belongs to under the same dispatch order. -/
def bedDept (s : HospitalState) (bid : String) : Option String :=
  match lookupBed s.icu_beds bid with
  | some _ => some "ICU"
  | none =>
    match lookupBed s.ed_trauma_bays bid with
    | some _ => some "ED_Trauma"
    | none => none

/-- The replacement dict that a successful reservation stores for the bed:
`{'status': 'reserved', 'patient': .., 'priority': .., 'reserved_at': ..}`
(note the previous keys, e.g. `expected_discharge`, are dropped). -/
def reservedBed (patient_name priority reservation_time : String) : Bed :=
  ⟨"reserved", some patient_name, some priority, some reservation_time, none⟩

/-- Outcome of `reserve_bed`, one constructor per return site (the dict's
`success` flag and the data interpolated into its `message`). -/
inductive ReserveBedResult where
  | success (bed_id department patient : String)
  | alreadyReserved (bed_id : String) (current_patient : Option String)
  | notAvailable (bed_id status : String)
  | notFound (bed_id : String)
deriving DecidableEq, Repr

/-- Embedding of `reserve_bed(bed_id, patient_name, priority)`; the
`datetime.now()` reservation timestamp is the extra `now` parameter.
Returns the result together with the updated `HOSPITAL_STATE`. -/
def reserve_bed (s : HospitalState) (bed_id patient_name priority now : String) :
    ReserveBedResult × HospitalState :=
  match lookupBed s.icu_beds bed_id with
  | some b =>
    if b.status = "reserved" then
      (.alreadyReserved bed_id b.patient, s)
    else if b.status = "available" then
      (.success bed_id "ICU" patient_name,
       { s with icu_beds := updateBed s.icu_beds bed_id (reservedBed patient_name priority now) })
    else
      (.notAvailable bed_id b.status, s)
  | none =>
    match lookupBed s.ed_trauma_bays bed_id with
    | some b =>
      if b.status = "reserved" then
        (.alreadyReserved bed_id b.patient, s)
      else if b.status = "available" then
        (.success bed_id "ED_Trauma" patient_name,
         { s with ed_trauma_bays := updateBed s.ed_trauma_bays bed_id (reservedBed patient_name priority now) })
      else
        (.notAvailable bed_id b.status, s)
    | none => (.notFound bed_id, s)

/-- Arguments of one `reserve_bed` call. -/
structure BedCall where
  bed_id : String
  patient_name : String
  priority : String
  now : String
deriving DecidableEq, Repr

/-- State reached after a sequence of `reserve_bed` calls. -/
def applyBedCalls (s : HospitalState) (calls : List BedCall) : HospitalState :=
  calls.foldl (fun st c => (reserve_bed st c.bed_id c.patient_name c.priority c.now).2) s

/-- Outcome of `reserve_equipment`, one constructor per return site. -/
inductive ReserveEquipResult where
  | success (equipment_type : String) (quantity_reserved : Int) (patient : String)
      (remaining_available : Int)
  | insufficient (equipment_type : String) (requested availableNow : Int)
  | unknownType (equipment_type : String)
deriving DecidableEq, Repr

/-- Embedding of `reserve_equipment(equipment_type, patient_name, quantity)`. -/
def reserve_equipment (s : HospitalState) (equipment_type patient_name : String)
    (quantity : Int) : ReserveEquipResult × HospitalState :=
  match lookupEquip s.equipment equipment_type with
  | none => (.unknownType equipment_type, s)
  | some pool =>
    if pool.available < quantity then
      (.insufficient equipment_type quantity pool.available, s)
    else
      (.success equipment_type quantity patient_name (pool.available - quantity),
       { s with equipment := setEquip s.equipment equipment_type
                  { pool with available := pool.available - quantity } })

/-- Arguments of one `reserve_equipment` call. -/
structure EquipCall where
  equipment_type : String
  patient_name : String
  quantity : Int
deriving DecidableEq, Repr

/-- State reached after a sequence of `reserve_equipment` calls. -/
def applyEquipCalls (s : HospitalState) (calls : List EquipCall) : HospitalState :=
  calls.foldl (fun st c => (reserve_equipment st c.equipment_type c.patient_name c.quantity).2) s

/-- The `vital_signs` argument of `calculate_clinical_score`: a dictionary
that may lack any of its three keys (the code reads every key with `.get`
and a default).  Numeric values are embedded as exact rationals. -/
structure Vitals where
  heart_rate : Option ℚ
  bp_systolic : Option ℚ
  oxygen_saturation : Option ℚ
deriving DecidableEq

/-- The dict returned by `calculate_clinical_score`; `calculation_time`
carries the `datetime.now().isoformat()` string. -/
structure Assessment where
  clinical_score : Nat
  severity : String
  survival_probability : Int
  risk_factors : List String
  calculation_time : String
deriving DecidableEq, Repr

/-- The `critical_keywords` table, in its Python insertion order. -/
def criticalKeywords : List (String × Nat) :=
  [ ("chest pain", 3), ("unresponsive", 4), ("stroke", 4), ("seizure", 3),
    ("severe bleeding", 3), ("head trauma", 3), ("difficulty breathing", 2),
    ("altered mental", 2) ]

/-- Embedding of Python's `str.lower()` (per-character lowering of the
character sequence). -/
def lowerChars (s : String) : List Char :=
  s.data.map Char.toLower

/-- The inner `for keyword, points in critical_keywords.items()` loop with
its `break`: the points of the first table entry whose keyword occurs in
the (already lowercased) symptom string, if any. -/
def firstKeywordPoints : List (String × Nat) → List Char → Option Nat
  | [], _ => none
  | (kw, pts) :: rest, symptomLower =>
    if charsContain kw.data symptomLower then some pts
    else firstKeywordPoints rest symptomLower

/-- One iteration of the `for symptom in symptoms` loop: the first matching
keyword (if any) adds its points and appends one risk factor, then the
loop breaks to the next symptom. -/
def symptomFold (acc : Nat × List String) (sym : String) : Nat × List String :=
  match firstKeywordPoints criticalKeywords (lowerChars sym) with
  | some pts => (acc.1 + pts, acc.2 ++ ["Critical symptom: " ++ sym])
  | none => acc

/-- The `# Calculate severity` block: severity tier and survival
probability from the total score (every branch of the block reads only
`score`). -/
def severityAndSurvival (score : Nat) : String × Int :=
  if 12 ≤ score then ("CRITICAL", max 40 (95 - (score : Int) * 4))
  else if 8 ≤ score then ("HIGH", max 60 (100 - (score : Int) * 3))
  else if 5 ≤ score then ("MODERATE", max 80 (100 - (score : Int) * 2))
  else ("LOW", 95)

/-- The `# Age scoring`, `# Vital signs`, `# Heart rate`, `# Blood
pressure` and `# Oxygen saturation` blocks of `calculate_clinical_score`:
the running `(score, risk_factors)` pair just before the symptom loop. -/
def preSymptomState (age : Int) (vital_signs : Vitals) : Nat × List String :=
  let st1 : Nat × List String :=
    if 75 < age then (3, ["Advanced age (" ++ toString age ++ "y)"])
    else if 65 < age then (2, ["Elderly (" ++ toString age ++ "y)"])
    else if age < 1 then (2, ["Infant"])
    else (0, [])
  let hr := vital_signs.heart_rate.getD 80
  let bp_sys := vital_signs.bp_systolic.getD 120
  let o2_sat := vital_signs.oxygen_saturation.getD 98
  let st2 : Nat × List String :=
    if 130 < hr ∨ hr < 50 then
      (st1.1 + 3, st1.2 ++ ["Critical heart rate (" ++ toString hr ++ " bpm)"])
    else if 110 < hr ∨ hr < 60 then
      (st1.1 + 2, st1.2 ++ ["Abnormal heart rate (" ++ toString hr ++ " bpm)"])
    else st1
  let st3 : Nat × List String :=
    if bp_sys < 90 then
      (st2.1 + 4, st2.2 ++ ["Hypotension (" ++ toString bp_sys ++ " mmHg)"])
    else if 180 < bp_sys then
      (st2.1 + 2, st2.2 ++ ["Severe hypertension (" ++ toString bp_sys ++ " mmHg)"])
    else st2
  let st4 : Nat × List String :=
    if o2_sat < 88 then
      (st3.1 + 5, st3.2 ++ ["Critical hypoxia (" ++ toString o2_sat ++ "%)"])
    else if o2_sat < 92 then
      (st3.1 + 3, st3.2 ++ ["Hypoxia (" ++ toString o2_sat ++ "%)"])
    else if o2_sat < 95 then
      (st3.1 + 1, st3.2 ++ ["Low oxygen (" ++ toString o2_sat ++ "%)"])
    else st3
  st4

/-- Embedding of `calculate_clinical_score(age, vital_signs, symptoms)`.
The running `(score, risk_factors)` pair is threaded through the same
sequence of conditional blocks as the source; `now` stands for
`datetime.now().isoformat()`. -/
def calculate_clinical_score (age : Int) (vital_signs : Vitals)
    (symptoms : List String) (now : String) : Assessment :=
  let st4 : Nat × List String := preSymptomState age vital_signs
  let st5 : Nat × List String := symptoms.foldl symptomFold st4
  let sevSurv : String × Int := severityAndSurvival st5.1
  { clinical_score := st5.1
    severity := sevSurv.1
    survival_probability := sevSurv.2
    risk_factors := st5.2
    calculation_time := now }

/-- Points a single symptom string contributes: those of the first matching
keyword of the fixed table, or 0 when nothing matches. -/
def symptomPoints (symptom : String) : Nat :=
  (firstKeywordPoints criticalKeywords (lowerChars symptom)).getD 0

/-- The age block of the scorer on its own (used to state that a call with
an empty vitals dictionary gets 0 points from vitals). -/
def ageScore (age : Int) : Nat :=
  if 75 < age then 3 else if 65 < age then 2 else if age < 1 then 2 else 0

/-- The dict returned by `check_equipment`. -/
structure EquipmentStatus where
  equipment_type : String
  available : Int
  total : Int
  in_use : Int
  utilization_rate : ℚ
  status : String
deriving DecidableEq, Repr

/-- Embedding of `check_equipment(equipment_type)`: `.get(equipment_type, {})`
followed by `.get('available', 0)` / `.get('total', 0)` becomes a lookup
with the all-zero pool as default. -/
def check_equipment (e : Equipment) (equipment_type : String) : EquipmentStatus :=
  let pool := (lookupEquip e equipment_type).getD ⟨0, 0⟩
  let available := pool.available
  let total := pool.total
  { equipment_type := equipment_type
    available := available
    total := total
    in_use := total - available
    utilization_rate :=
      if 0 < total then ((total - available : Int) : ℚ) / (total : ℚ) * 100 else 0
    status := if 0 < available then "available" else "all_in_use" }

/-- The conflict severity strings used by `detect_resource_conflicts`. -/
inductive ConflictSeverity where
  | NONE
  | MODERATE
  | HIGH
  | CRITICAL
deriving DecidableEq, Repr

/-- Numeric rank of a conflict severity (NONE lowest, CRITICAL highest). -/
def sevRank : ConflictSeverity → Nat
  | .NONE => 0
  | .MODERATE => 1
  | .HIGH => 2
  | .CRITICAL => 3

/-- Maximum of two conflict severities under `sevRank`. -/
def sevMax (a b : ConflictSeverity) : ConflictSeverity :=
  if sevRank a ≤ sevRank b then b else a

/-- One conflict record appended by `detect_resource_conflicts`.  The
`details` and `recommendation` display strings of the Python dict are not
modelled; `ctype` and `severity` identify the record. -/
structure Conflict where
  ctype : String
  severity : ConflictSeverity
deriving DecidableEq, Repr

/-- The dict returned by `detect_resource_conflicts`. -/
structure ConflictReport where
  conflicts_detected : Bool
  conflict_count : Nat
  severity : ConflictSeverity
  conflicts : List Conflict
  requires_intervention : Bool
deriving DecidableEq, Repr

/-- `sum(1 for bed in beds.values() if bed['status'] == 'available')`. -/
def countAvailable (beds : List (String × Bed)) : Nat :=
  (beds.filter (fun kb => kb.2.status = "available")).length

/-- The ICU occupancy percentage `(total - available) / total * 100`
computed by `detect_resource_conflicts`, as an exact rational (the Python
float arithmetic is exact at the 90 / 75 thresholds for the small counts
involved). -/
def icuOccupancyPct (s : HospitalState) : ℚ :=
  (((s.icu_beds.length : ℚ) - (countAvailable s.icu_beds : ℚ))
      / (s.icu_beds.length : ℚ)) * 100

/-- The `# Check ICU bed conflicts` block of `detect_resource_conflicts`:
initial `(conflicts, conflict_severity)` after the ICU rule (the
`!= "CRITICAL"` guard of the elif branch is kept verbatim, applied to the
initial NONE severity). -/
def icuStage (s : HospitalState) : List Conflict × ConflictSeverity :=
  let sev0 := ConflictSeverity.NONE
  if icuOccupancyPct s ≥ 90 then
    ([⟨"ICU_CAPACITY", .CRITICAL⟩], .CRITICAL)
  else if icuOccupancyPct s ≥ 75 then
    ([⟨"ICU_CAPACITY", .HIGH⟩], if sev0 ≠ .CRITICAL then .HIGH else sev0)
  else ([], sev0)

/-- The `# Check ED trauma bay conflicts` block, transforming the running
`(conflicts, conflict_severity)` pair. -/
def traumaStage (s : HospitalState) (st : List Conflict × ConflictSeverity) :
    List Conflict × ConflictSeverity :=
  if countAvailable s.ed_trauma_bays = 0 then
    (st.1 ++ [⟨"TRAUMA_BAY_SHORTAGE", .HIGH⟩],
     if st.2 ≠ .CRITICAL ∧ st.2 ≠ .HIGH then .HIGH else st.2)
  else st

/-- The `# Check staff workload` block. -/
def physicianStage (s : HospitalState) (st : List Conflict × ConflictSeverity) :
    List Conflict × ConflictSeverity :=
  if s.ed_physicians.filter (fun p => 5 ≤ p.current_load) ≠ [] then
    (st.1 ++ [⟨"PHYSICIAN_OVERLOAD", .MODERATE⟩],
     if st.2 = .NONE then .MODERATE else st.2)
  else st

/-- The `# Check equipment shortages` block. -/
def ventilatorStage (s : HospitalState) (st : List Conflict × ConflictSeverity) :
    List Conflict × ConflictSeverity :=
  if s.equipment.ventilators.available = 0 then
    (st.1 ++ [⟨"VENTILATOR_SHORTAGE", .CRITICAL⟩], .CRITICAL)
  else if s.equipment.ventilators.available ≤ 1 then
    (st.1 ++ [⟨"VENTILATOR_LIMITED", .HIGH⟩],
     if st.2 ≠ .CRITICAL then .HIGH else st.2)
  else st

/-- Embedding of `detect_resource_conflicts()`: the four rule blocks run
in sequence on the running `(conflicts, conflict_severity)` pair, then the
report dict is assembled. -/
def detect_resource_conflicts (s : HospitalState) : ConflictReport :=
  let st4 := ventilatorStage s (physicianStage s (traumaStage s (icuStage s)))
  { conflicts_detected := decide (0 < st4.1.length)
    conflict_count := st4.1.length
    severity := st4.2
    conflicts := st4.1
    requires_intervention := decide (st4.2 = .CRITICAL ∨ st4.2 = .HIGH) }

/-- The severities of the triggered conflict rules, written after the
spec's independent rule list (ICU occupancy, trauma bays, physician load,
ventilators) for comparison with the staged computation of the source. -/
def specTriggeredSeverities (s : HospitalState) : List ConflictSeverity :=
  (if icuOccupancyPct s ≥ 90 then [ConflictSeverity.CRITICAL]
   else if icuOccupancyPct s ≥ 75 then [ConflictSeverity.HIGH]
   else [])
  ++ (if countAvailable s.ed_trauma_bays = 0 then [ConflictSeverity.HIGH] else [])
  ++ (if s.ed_physicians.filter (fun p => 5 ≤ p.current_load) ≠ []
      then [ConflictSeverity.MODERATE] else [])
  ++ (if s.equipment.ventilators.available = 0 then [ConflictSeverity.CRITICAL]
      else if s.equipment.ventilators.available = 1 then [ConflictSeverity.HIGH]
      else [])

/-- Severity contributed by the ICU occupancy rule (NONE if untriggered). -/
def icuRuleSeverity (s : HospitalState) : ConflictSeverity :=
  if icuOccupancyPct s ≥ 90 then .CRITICAL
  else if icuOccupancyPct s ≥ 75 then .HIGH
  else .NONE

/-- Severity contributed by the trauma bay rule. -/
def traumaRuleSeverity (s : HospitalState) : ConflictSeverity :=
  if countAvailable s.ed_trauma_bays = 0 then .HIGH else .NONE

/-- Severity contributed by the physician workload rule. -/
def physicianRuleSeverity (s : HospitalState) : ConflictSeverity :=
  if s.ed_physicians.filter (fun p => 5 ≤ p.current_load) ≠ [] then .MODERATE
  else .NONE

/-- Severity contributed by the ventilator rule (the source's `<= 1` elif
guard). -/
def ventilatorRuleSeverity (s : HospitalState) : ConflictSeverity :=
  if s.equipment.ventilators.available = 0 then .CRITICAL
  else if s.equipment.ventilators.available ≤ 1 then .HIGH
  else .NONE

/-- The one-or-zero-element severity list a rule contributes. -/
def sevListOf : ConflictSeverity → List ConflictSeverity
  | .NONE => []
  | a => [a]

/-- The `beds.icu` sub-dict of a `get_hospital_state` snapshot. -/
structure BedsIcu where
  available : List String
  available_count : Nat
  occupied : List String
  occupied_count : Nat
  total : Nat
  occupancy_rate : ℚ
deriving DecidableEq, Repr

/-- The `beds.trauma_bays` sub-dict of a snapshot. -/
structure BedsTrauma where
  available : List String
  available_count : Nat
  occupied : List String
  occupied_count : Nat
  total : Nat
deriving DecidableEq, Repr

/-- The `beds` section of a snapshot. -/
structure BedsSection where
  icu : BedsIcu
  trauma_bays : BedsTrauma
  ed_treatment : Rooms
deriving DecidableEq, Repr

/-- The `physician_workload_summary` sub-dict of a snapshot. -/
structure WorkloadSummary where
  least_busy : Int
  most_busy : Int
  average_load : ℚ
deriving DecidableEq, Repr

/-- The `staff` section of a snapshot. -/
structure StaffSection where
  physicians : List Physician
  nurses : List Nurse
  cardiologists : List Specialist
  trauma_surgeons : List Specialist
  physician_workload_summary : WorkloadSummary
deriving DecidableEq, Repr

/-- One entry of the `equipment_shortages` list.  The entry's display
string is not modelled: `equip_type` is the interpolated equipment type
and `none_available` tells which of the two branches produced it. -/
structure ShortageEntry where
  equip_type : String
  none_available : Bool
deriving DecidableEq, Repr

/-- The snapshot dict returned by `get_hospital_state`; sections that the
filter does not select are absent (`none`).  The `timestamp` field is not
modelled. -/
structure Snapshot where
  query_filter : String
  beds : Option BedsSection
  staff : Option StaffSection
  equipment : Option Equipment
  equipment_shortages : Option (List ShortageEntry)
deriving DecidableEq, Repr

/-- Ids of beds whose status is `available`, in dict order. -/
def availableIds (beds : List (String × Bed)) : List String :=
  (beds.filter (fun kb => kb.2.status = "available")).map Prod.fst

/-- Ids of beds whose status is in `['occupied', 'reserved']`, in dict
order. -/
def occupiedOrReservedIds (beds : List (String × Bed)) : List String :=
  (beds.filter (fun kb => kb.2.status = "occupied" ∨ kb.2.status = "reserved")).map Prod.fst

/-- `min(gen, default=0)` over a list of ints. -/
def listMinD (default : Int) : List Int → Int
  | [] => default
  | x :: xs => xs.foldl min x

/-- `max(gen, default=0)` over a list of ints. -/
def listMaxD (default : Int) : List Int → Int
  | [] => default
  | x :: xs => xs.foldl max x

/-- The `physician_workload_summary` computation of `get_hospital_state`. -/
def physicianSummary (ps : List Physician) : WorkloadSummary :=
  let loads := ps.map Physician.current_load
  { least_busy := listMinD 0 loads
    most_busy := listMaxD 0 loads
    average_load := ((loads.sum : Int) : ℚ) / (ps.length : ℚ) }

/-- The `beds` section built by `get_hospital_state`. -/
def bedsSection (s : HospitalState) : BedsSection :=
  let icu_available := availableIds s.icu_beds
  let icu_occupied := occupiedOrReservedIds s.icu_beds
  let trauma_available := availableIds s.ed_trauma_bays
  let trauma_occupied := occupiedOrReservedIds s.ed_trauma_bays
  { icu :=
      { available := icu_available
        available_count := icu_available.length
        occupied := icu_occupied
        occupied_count := icu_occupied.length
        total := s.icu_beds.length
        occupancy_rate := (icu_occupied.length : ℚ) / (s.icu_beds.length : ℚ) * 100 }
    trauma_bays :=
      { available := trauma_available
        available_count := trauma_available.length
        occupied := trauma_occupied
        occupied_count := trauma_occupied.length
        total := s.ed_trauma_bays.length }
    ed_treatment := s.ed_treatment_rooms }

/-- The `staff` section built by `get_hospital_state`. -/
def staffSection (s : HospitalState) : StaffSection :=
  { physicians := s.ed_physicians
    nurses := s.ed_nurses
    cardiologists := s.cardiologists
    trauma_surgeons := s.trauma_surgeons
    physician_workload_summary := physicianSummary s.ed_physicians }

/-- Equipment utilization percentage `(total - available) / total * 100`. -/
def utilizationPct (p : Pool) : ℚ :=
  ((p.total - p.available : Int) : ℚ) / (p.total : ℚ) * 100

/-- The shortage entries one pool contributes (`available == 0` first,
else the `>= 80` utilization branch). -/
def shortageEntryFor (ty : String) (p : Pool) : List ShortageEntry :=
  if p.available = 0 then [⟨ty, true⟩]
  else if utilizationPct p ≥ 80 then [⟨ty, false⟩]
  else []

/-- The `equipment_shortages` list, iterating the equipment dict in its
fixed insertion order. -/
def equipmentShortages (e : Equipment) : List ShortageEntry :=
  shortageEntryFor "ventilators" e.ventilators
    ++ shortageEntryFor "cardiac_monitors" e.cardiac_monitors
    ++ shortageEntryFor "defibrillators" e.defibrillators

/-- The `query_filter or 'full_state'` label stored in the snapshot
(Python `or` replaces both `None` and the empty string, which are falsy,
by `'full_state'`). -/
def filterLabel : Option String → String
  | none => "full_state"
  | some q => if q = "" then "full_state" else q

/-- Embedding of `get_hospital_state(query_filter)`. -/
def get_hospital_state (s : HospitalState) (query_filter : Option String) : Snapshot :=
  let bedsCond := query_filter = none ∨ query_filter = some "beds_only"
      ∨ query_filter = some "full_state"
  let staffCond := query_filter = none ∨ query_filter = some "staff_only"
      ∨ query_filter = some "full_state"
  let equipCond := query_filter = none ∨ query_filter = some "equipment_only"
      ∨ query_filter = some "full_state"
  { query_filter := filterLabel query_filter
    beds := if bedsCond then some (bedsSection s) else none
    staff := if staffCond then some (staffSection s) else none
    equipment := if equipCond then some s.equipment else none
    equipment_shortages := if equipCond then some (equipmentShortages s.equipment) else none }

lemma calc_severity_projection (age : Int) (v : Vitals) (sy : List String) (t : String) :
    (calculate_clinical_score age v sy t).severity
      = (severityAndSurvival (calculate_clinical_score age v sy t).clinical_score).1 := rfl

lemma calc_survival_projection (age : Int) (v : Vitals) (sy : List String) (t : String) :
    (calculate_clinical_score age v sy t).survival_probability
      = (severityAndSurvival (calculate_clinical_score age v sy t).clinical_score).2 := rfl

lemma severityAndSurvival_cases (n : Nat) :
    (12 ≤ n → severityAndSurvival n = ("CRITICAL", max 40 (95 - (n : Int) * 4)))
    ∧ (8 ≤ n ∧ n ≤ 11 → severityAndSurvival n = ("HIGH", max 60 (100 - (n : Int) * 3)))
    ∧ (5 ≤ n ∧ n ≤ 7 → severityAndSurvival n = ("MODERATE", max 80 (100 - (n : Int) * 2)))
    ∧ (n < 5 → severityAndSurvival n = ("LOW", 95)) := by
  unfold severityAndSurvival
  refine ⟨fun h => ?_, fun h => ?_, fun h => ?_, fun h => ?_⟩ <;>
    split_ifs <;> first | rfl | omega

lemma foldl_symptomFold_fst (sy : List String) :
    ∀ acc : Nat × List String,
      (sy.foldl symptomFold acc).1 = acc.1 + (sy.map symptomPoints).sum := by
  induction sy with
  | nil => intro acc; simp
  | cons s rest ih =>
    intro acc
    simp only [List.foldl_cons, List.map_cons, List.sum_cons]
    rw [ih]
    unfold symptomFold symptomPoints
    cases h : firstKeywordPoints criticalKeywords (lowerChars s)
    · simp [h]
    · simp only [h, Option.getD_some]
      omega

lemma calc_score_decomp (age : Int) (v : Vitals) (sy : List String) (t : String) :
    (calculate_clinical_score age v sy t).clinical_score
      = (calculate_clinical_score age v [] t).clinical_score
          + (sy.map symptomPoints).sum :=
  foldl_symptomFold_fst sy (preSymptomState age v)

lemma firstKeywordPoints_first_match :
    ∀ (pre : List (String × Nat)) (kw : String) (pts : Nat)
      (rest : List (String × Nat)) (sl : List Char),
      (∀ kp ∈ pre, charsContain kp.1.data sl = false) →
      charsContain kw.data sl = true →
      firstKeywordPoints (pre ++ (kw, pts) :: rest) sl = some pts := by
  intro pre
  induction pre with
  | nil =>
    intro kw pts rest sl _ hkw
    simp [firstKeywordPoints, hkw]
  | cons hd tl ih =>
    intro kw pts rest sl hpre hkw
    obtain ⟨k, p⟩ := hd
    have hhd : charsContain k.data sl = false := hpre (k, p) (List.mem_cons_self _ _)
    simp only [List.cons_append, firstKeywordPoints, hhd]
    simp only [Bool.false_eq_true, if_false]
    exact ih kw pts rest sl (fun kp hm => hpre kp (List.mem_cons_of_mem _ hm)) hkw

lemma firstKeywordPoints_no_match :
    ∀ (tbl : List (String × Nat)) (sl : List Char),
      (∀ kp ∈ tbl, charsContain kp.1.data sl = false) →
      firstKeywordPoints tbl sl = none := by
  intro tbl
  induction tbl with
  | nil => intro sl _; rfl
  | cons hd tl ih =>
    intro sl h
    obtain ⟨k, p⟩ := hd
    have hhd : charsContain k.data sl = false := h (k, p) (List.mem_cons_self _ _)
    simp only [firstKeywordPoints, hhd, Bool.false_eq_true, if_false]
    exact ih sl (fun kp hm => h kp (List.mem_cons_of_mem _ hm))

lemma base_score_empty_vitals (age : Int) (t : String) :
    (calculate_clinical_score age ⟨none, none, none⟩ [] t).clinical_score = ageScore age := by
  show (preSymptomState age ⟨none, none, none⟩).1 = ageScore age
  unfold preSymptomState ageScore
  norm_num
  split_ifs <;> rfl

/-- C3: the severity tier and survival probability returned by
`calculate_clinical_score` are a function of the total score alone:
score ≥ 12 gives CRITICAL with survival `max 40 (95 - 4*score)`,
8..11 gives HIGH with `max 60 (100 - 3*score)`, 5..7 gives MODERATE with
`max 80 (100 - 2*score)`, below 5 gives LOW with 95; any two inputs with
the same score receive the same tier and survival probability. -/
theorem calculate_clinical_score_severity_mapping (age : Int) (v : Vitals)
    (sy : List String) (t : String) :
    (12 ≤ (calculate_clinical_score age v sy t).clinical_score →
      (calculate_clinical_score age v sy t).severity = "CRITICAL"
      ∧ (calculate_clinical_score age v sy t).survival_probability
          = max 40 (95 - ((calculate_clinical_score age v sy t).clinical_score : Int) * 4))
    ∧ (8 ≤ (calculate_clinical_score age v sy t).clinical_score
        ∧ (calculate_clinical_score age v sy t).clinical_score ≤ 11 →
      (calculate_clinical_score age v sy t).severity = "HIGH"
      ∧ (calculate_clinical_score age v sy t).survival_probability
          = max 60 (100 - ((calculate_clinical_score age v sy t).clinical_score : Int) * 3))
    ∧ (5 ≤ (calculate_clinical_score age v sy t).clinical_score
        ∧ (calculate_clinical_score age v sy t).clinical_score ≤ 7 →
      (calculate_clinical_score age v sy t).severity = "MODERATE"
      ∧ (calculate_clinical_score age v sy t).survival_probability
          = max 80 (100 - ((calculate_clinical_score age v sy t).clinical_score : Int) * 2))
    ∧ ((calculate_clinical_score age v sy t).clinical_score < 5 →
      (calculate_clinical_score age v sy t).severity = "LOW"
      ∧ (calculate_clinical_score age v sy t).survival_probability = 95)
    ∧ (∀ (age2 : Int) (v2 : Vitals) (sy2 : List String) (t2 : String),
        (calculate_clinical_score age2 v2 sy2 t2).clinical_score
          = (calculate_clinical_score age v sy t).clinical_score →
        (calculate_clinical_score age2 v2 sy2 t2).severity
          = (calculate_clinical_score age v sy t).severity
        ∧ (calculate_clinical_score age2 v2 sy2 t2).survival_probability
          = (calculate_clinical_score age v sy t).survival_probability) := by
  have hc := severityAndSurvival_cases (calculate_clinical_score age v sy t).clinical_score
  refine ⟨fun h => ?_, fun h => ?_, fun h => ?_, fun h => ?_,
    fun age2 v2 sy2 t2 h => ?_⟩
  · rw [calc_severity_projection, calc_survival_projection, hc.1 h]
    exact ⟨rfl, rfl⟩
  · rw [calc_severity_projection, calc_survival_projection, hc.2.1 h]
    exact ⟨rfl, rfl⟩
  · rw [calc_severity_projection, calc_survival_projection, hc.2.2.1 h]
    exact ⟨rfl, rfl⟩
  · rw [calc_severity_projection, calc_survival_projection, hc.2.2.2 h]
    exact ⟨rfl, rfl⟩
  · rw [calc_severity_projection age2 v2 sy2 t2, calc_survival_projection age2 v2 sy2 t2, h]
    exact ⟨(calc_severity_projection age v sy t).symm, (calc_survival_projection age v sy t).symm⟩

/-- Witness for C3: a concrete critical patient (age 80, HR 140, BP 80,
O2 sat 85, symptom "unresponsive") scores 19 ≥ 12 and receives the
CRITICAL tier with the claimed survival formula. -/
theorem calculate_clinical_score_severity_mapping_witness :
    12 ≤ (calculate_clinical_score 80 ⟨some 140, some 80, some 85⟩ ["unresponsive"] "T").clinical_score
    ∧ ((calculate_clinical_score 80 ⟨some 140, some 80, some 85⟩ ["unresponsive"] "T").severity = "CRITICAL"
      ∧ (calculate_clinical_score 80 ⟨some 140, some 80, some 85⟩ ["unresponsive"] "T").survival_probability
          = max 40 (95 - ((calculate_clinical_score 80 ⟨some 140, some 80, some 85⟩ ["unresponsive"] "T").clinical_score : Int) * 4)) :=
  ⟨by decide,
   (calculate_clinical_score_severity_mapping 80 ⟨some 140, some 80, some 85⟩ ["unresponsive"] "T").1 (by decide)⟩

/-- C5: the symptom contribution to the clinical score is the sum over
symptom strings of the points of the first keyword of the fixed table that
occurs (case-insensitively) in the symptom; a symptom matching no keyword
contributes 0, and one matching several contributes only the first match's
points. -/
theorem calculate_clinical_score_symptom_scoring (age : Int) (v : Vitals)
    (sy : List String) (t : String) :
    (calculate_clinical_score age v sy t).clinical_score
      = (calculate_clinical_score age v [] t).clinical_score
          + (sy.map symptomPoints).sum
    ∧ (∀ (pre : List (String × Nat)) (kw : String) (pts : Nat) (rest : List (String × Nat)),
        criticalKeywords = pre ++ (kw, pts) :: rest →
        ∀ sym : String,
          (∀ kp ∈ pre, charsContain kp.1.data (lowerChars sym) = false) →
          charsContain kw.data (lowerChars sym) = true →
          symptomPoints sym = pts)
    ∧ (∀ sym : String,
        (∀ kp ∈ criticalKeywords, charsContain kp.1.data (lowerChars sym) = false) →
        symptomPoints sym = 0) := by
  refine ⟨calc_score_decomp age v sy t, ?_, ?_⟩
  · intro pre kw pts rest heq sym hpre hkw
    unfold symptomPoints
    rw [heq, firstKeywordPoints_first_match pre kw pts rest _ hpre hkw]
    rfl
  · intro sym h
    unfold symptomPoints
    rw [firstKeywordPoints_no_match _ _ h]
    rfl

/-- Witness for C5: with symptoms ["Severe Chest Pain", "fever"], the score
decomposes as base plus per-symptom first-match points, and the first
symptom matches the table head "chest pain" for 3 points. -/
theorem calculate_clinical_score_symptom_scoring_witness :
    ((calculate_clinical_score 40 ⟨none, none, none⟩ ["Severe Chest Pain", "fever"] "T").clinical_score
      = (calculate_clinical_score 40 ⟨none, none, none⟩ [] "T").clinical_score
          + (["Severe Chest Pain", "fever"].map symptomPoints).sum)
    ∧ symptomPoints "Severe Chest Pain" = 3 := by
  have h := calculate_clinical_score_symptom_scoring 40 ⟨none, none, none⟩ ["Severe Chest Pain", "fever"] "T"
  refine ⟨h.1, h.2.1 [] "chest pain" 3
    [("unresponsive", 4), ("stroke", 4), ("seizure", 3), ("severe bleeding", 3),
     ("head trauma", 3), ("difficulty breathing", 2), ("altered mental", 2)]
    rfl "Severe Chest Pain" (by simp) (by decide)⟩

/-- C6: `calculate_clinical_score` is total over its vitals dictionary: a
missing vital is scored exactly as the clinically-normal default (heart
rate 80, systolic BP 120, oxygen saturation 98), and a call with an empty
vitals dictionary succeeds with the vitals contributing 0 points. -/
theorem calculate_clinical_score_missing_vitals (age : Int) (sy : List String) (t : String) :
    calculate_clinical_score age ⟨none, none, none⟩ sy t
      = calculate_clinical_score age ⟨some 80, some 120, some 98⟩ sy t
    ∧ (calculate_clinical_score age ⟨none, none, none⟩ sy t).clinical_score
      = ageScore age + (sy.map symptomPoints).sum
    ∧ (∀ v : Vitals, v.heart_rate = none →
        calculate_clinical_score age v sy t
          = calculate_clinical_score age { v with heart_rate := some 80 } sy t)
    ∧ (∀ v : Vitals, v.bp_systolic = none →
        calculate_clinical_score age v sy t
          = calculate_clinical_score age { v with bp_systolic := some 120 } sy t)
    ∧ (∀ v : Vitals, v.oxygen_saturation = none →
        calculate_clinical_score age v sy t
          = calculate_clinical_score age { v with oxygen_saturation := some 98 } sy t) := by
  refine ⟨rfl, ?_, ?_, ?_, ?_⟩
  · rw [calc_score_decomp, base_score_empty_vitals]
  · intro v h
    obtain ⟨hrv, bpv, o2v⟩ := v
    simp only at h
    subst h
    rfl
  · intro v h
    obtain ⟨hrv, bpv, o2v⟩ := v
    simp only at h
    subst h
    rfl
  · intro v h
    obtain ⟨hrv, bpv, o2v⟩ := v
    simp only at h
    subst h
    rfl

/-- Witness for C6: a vitals dictionary lacking its heart-rate key is
scored exactly as the same dictionary with heart rate 80. -/
theorem calculate_clinical_score_missing_vitals_witness :
    ((⟨none, some 85, none⟩ : Vitals).heart_rate = none)
    ∧ calculate_clinical_score 40 ⟨none, some 85, none⟩ ["dizzy"] "T"
        = calculate_clinical_score 40 ⟨some 80, some 85, none⟩ ["dizzy"] "T" := by
  have h := calculate_clinical_score_missing_vitals 40 ["dizzy"] "T"
  exact ⟨rfl, h.2.2.1 ⟨none, some 85, none⟩ rfl⟩

/-- C7 (amended): `calculate_clinical_score` is deterministic in its input
(age, vitals, symptoms): across any two invocations, every field except
the `calculation_time` timestamp is identical. -/
theorem calculate_clinical_score_deterministic (age : Int) (v : Vitals)
    (sy : List String) (t1 t2 : String) :
    (calculate_clinical_score age v sy t1).clinical_score
      = (calculate_clinical_score age v sy t2).clinical_score
    ∧ (calculate_clinical_score age v sy t1).severity
      = (calculate_clinical_score age v sy t2).severity
    ∧ (calculate_clinical_score age v sy t1).survival_probability
      = (calculate_clinical_score age v sy t2).survival_probability
    ∧ (calculate_clinical_score age v sy t1).risk_factors
      = (calculate_clinical_score age v sy t2).risk_factors :=
  ⟨rfl, rfl, rfl, rfl⟩

lemma lookupEquip_setEquip_self (e : Equipment) (ty : String) (p q : Pool)
    (h : lookupEquip e ty = some q) :
    lookupEquip (setEquip e ty p) ty = some p := by
  unfold lookupEquip setEquip at *
  split_ifs at * <;> simp_all

lemma lookupEquip_setEquip_ne (e : Equipment) (ty ty2 : String) (p : Pool)
    (h : ty2 ≠ ty) :
    lookupEquip (setEquip e ty p) ty2 = lookupEquip e ty2 := by
  unfold lookupEquip setEquip
  split_ifs <;> simp_all

lemma reserve_equipment_eq_none (s : HospitalState) (ty pname : String) (qty : Int)
    (hE : lookupEquip s.equipment ty = none) :
    reserve_equipment s ty pname qty = (.unknownType ty, s) := by
  unfold reserve_equipment
  rw [hE]

lemma reserve_equipment_eq_some (s : HospitalState) (ty pname : String) (qty : Int)
    (q : Pool) (hE : lookupEquip s.equipment ty = some q) :
    reserve_equipment s ty pname qty =
      if q.available < qty then (.insufficient ty qty q.available, s)
      else (.success ty qty pname (q.available - qty),
        { s with equipment := setEquip s.equipment ty ⟨q.available - qty, q.total⟩ }) := by
  unfold reserve_equipment
  rw [hE]

/-- Well-formedness of the pool registered under one equipment type. -/
def equipWfAt (s : HospitalState) (ty : String) : Prop :=
  ∀ p : Pool, lookupEquip s.equipment ty = some p → 0 ≤ p.available ∧ p.available ≤ p.total

lemma reserve_equipment_step_wf (s : HospitalState) (ty : String) (c : EquipCall)
    (hc : 0 ≤ c.quantity) (hwf : equipWfAt s ty) :
    equipWfAt (reserve_equipment s c.equipment_type c.patient_name c.quantity).2 ty := by
  intro p2 hl
  cases hE : lookupEquip s.equipment c.equipment_type with
  | none =>
    rw [reserve_equipment_eq_none _ _ _ _ hE] at hl
    exact hwf p2 hl
  | some q =>
    rw [reserve_equipment_eq_some _ _ _ _ _ hE] at hl
    by_cases hlt : q.available < c.quantity
    · rw [if_pos hlt] at hl
      exact hwf p2 hl
    · rw [if_neg hlt] at hl
      dsimp only at hl
      by_cases hty : ty = c.equipment_type
      · subst hty
        rw [lookupEquip_setEquip_self _ _ _ _ hE] at hl
        cases hl
        have hq := hwf q hE
        dsimp only
        constructor <;> omega
      · rw [lookupEquip_setEquip_ne _ _ _ _ hty] at hl
        exact hwf p2 hl

lemma applyEquipCalls_wf (ty : String) :
    ∀ (calls : List EquipCall) (s : HospitalState),
      (∀ c ∈ calls, 0 ≤ c.quantity) → equipWfAt s ty →
      equipWfAt (applyEquipCalls s calls) ty := by
  intro calls
  induction calls with
  | nil => intro s _ hwf; exact hwf
  | cons c rest ih =>
    intro s h hwf
    show equipWfAt (applyEquipCalls (reserve_equipment s c.equipment_type c.patient_name c.quantity).2 rest) ty
    exact ih _ (fun c2 hm => h c2 (List.mem_cons_of_mem _ hm))
      (reserve_equipment_step_wf s ty c (h c (List.mem_cons_self _ _)) hwf)

/-- C2 (amended): with a well-formed pool (`0 ≤ available ≤ total`), a
`reserve_equipment` call requesting more than the available count fails
with the insufficient result and changes nothing, a successful call
decrements `available` by exactly the requested quantity leaving other
pools untouched, and over every sequence of calls with NONNEGATIVE
quantities the pool stays within `[0, total]` (a negative quantity instead
increases `available` and can exceed `total`, see the counterexample). -/
theorem reserve_equipment_pool_bounds (s : HospitalState) (ty pname : String)
    (qty : Int) (p : Pool)
    (hp : lookupEquip s.equipment ty = some p)
    (h0 : 0 ≤ p.available) (h1 : p.available ≤ p.total) :
    (p.available < qty →
      (reserve_equipment s ty pname qty).1 = .insufficient ty qty p.available
      ∧ (reserve_equipment s ty pname qty).2 = s)
    ∧ (qty ≤ p.available →
      (reserve_equipment s ty pname qty).1 = .success ty qty pname (p.available - qty)
      ∧ lookupEquip (reserve_equipment s ty pname qty).2.equipment ty
          = some ⟨p.available - qty, p.total⟩
      ∧ (∀ ty2, ty2 ≠ ty →
          lookupEquip (reserve_equipment s ty pname qty).2.equipment ty2
            = lookupEquip s.equipment ty2))
    ∧ (0 ≤ qty →
        ∀ p2, lookupEquip (reserve_equipment s ty pname qty).2.equipment ty = some p2 →
          0 ≤ p2.available ∧ p2.available ≤ p2.total)
    ∧ (∀ calls : List EquipCall, (∀ c ∈ calls, 0 ≤ c.quantity) →
        ∀ p2, lookupEquip (applyEquipCalls s calls).equipment ty = some p2 →
          0 ≤ p2.available ∧ p2.available ≤ p2.total) := by
  have hwf : equipWfAt s ty := by
    intro p2 hl
    rw [hp] at hl
    cases hl
    exact ⟨h0, h1⟩
  refine ⟨fun h => ?_, fun h => ?_, fun hq => ?_, fun calls hcalls => ?_⟩
  · rw [reserve_equipment_eq_some _ _ _ _ _ hp, if_pos h]
    exact ⟨rfl, rfl⟩
  · have hnot : ¬ p.available < qty := by omega
    rw [reserve_equipment_eq_some _ _ _ _ _ hp, if_neg hnot]
    refine ⟨rfl, ?_, ?_⟩
    · exact lookupEquip_setEquip_self _ _ _ _ hp
    · intro ty2 hty2
      exact lookupEquip_setEquip_ne _ _ _ _ hty2
  · exact reserve_equipment_step_wf s ty ⟨ty, pname, qty⟩ hq hwf
  · exact applyEquipCalls_wf ty calls s hcalls hwf

/-- Witness for C2: on the initial state the ventilator pool is `{2, 7}`
(well-formed); requesting 5 units fails with the insufficient result and
leaves the state unchanged. -/
theorem reserve_equipment_pool_bounds_witness :
    lookupEquip initialHospitalState.equipment "ventilators" = some ⟨2, 7⟩
    ∧ ((reserve_equipment initialHospitalState "ventilators" "PX" 5).1
        = ReserveEquipResult.insufficient "ventilators" 5 2
      ∧ (reserve_equipment initialHospitalState "ventilators" "PX" 5).2
        = initialHospitalState) := by
  have h := reserve_equipment_pool_bounds initialHospitalState "ventilators" "PX" 5
    ⟨2, 7⟩ rfl (by decide) (by decide)
  exact ⟨rfl, h.1 (by decide)⟩

/-- Counterexample to C2 as stated: the claim quantifies over all integer
quantities including negative ones, but `reserve_equipment` with quantity
−10 on the ventilator pool `{available 2, total 7}` succeeds (−10 < 2
passes the insufficiency check) and sets `available` to 12 > total. -/
theorem reserve_equipment_negative_quantity_counterexample :
    (reserve_equipment initialHospitalState "ventilators" "PX" (-10)).1
      = ReserveEquipResult.success "ventilators" (-10) "PX" 12
    ∧ lookupEquip (reserve_equipment initialHospitalState "ventilators" "PX" (-10)).2.equipment "ventilators"
      = some ⟨12, 7⟩
    ∧ (reserve_equipment initialHospitalState "ventilators" "PX" (-10)).2.equipment.ventilators.total
      < (reserve_equipment initialHospitalState "ventilators" "PX" (-10)).2.equipment.ventilators.available := by
  decide

/-- C10: `check_equipment` is total over arbitrary equipment-type strings:
an unknown type yields available 0, total 0, in-use 0, utilization 0 and
status `all_in_use`; the utilization division is guarded so a pool with
total 0 yields utilization 0; a known pool is reported verbatim. -/
theorem check_equipment_total_on_strings (e : Equipment) (ty : String) :
    (lookupEquip e ty = none →
      check_equipment e ty
        = { equipment_type := ty, available := 0, total := 0, in_use := 0,
            utilization_rate := 0, status := "all_in_use" })
    ∧ ((check_equipment e ty).total = 0 → (check_equipment e ty).utilization_rate = 0)
    ∧ (∀ p : Pool, lookupEquip e ty = some p →
        (check_equipment e ty).available = p.available
        ∧ (check_equipment e ty).total = p.total
        ∧ (check_equipment e ty).in_use = p.total - p.available
        ∧ ((check_equipment e ty).status = "all_in_use" ↔ p.available ≤ 0)) := by
  refine ⟨fun h => ?_, fun h => ?_, fun p hp => ?_⟩
  · unfold check_equipment
    rw [h]
    rfl
  · cases hL : lookupEquip e ty with
    | none =>
      simp only [check_equipment, hL, Option.getD_none] at h ⊢
      norm_num
    | some p =>
      simp only [check_equipment, hL, Option.getD_some] at h ⊢
      rw [if_neg (by omega)]
  · simp only [check_equipment, hp, Option.getD_some]
    refine ⟨trivial, trivial, trivial, ?_⟩
    by_cases hpos : 0 < p.available
    · rw [if_pos hpos]
      constructor
      · intro hcontra
        exact absurd hcontra (by decide)
      · intro hle
        omega
    · rw [if_neg hpos]
      constructor
      · intro _
        omega
      · intro _
        rfl

lemma lookupBed_updateBed_ne :
    ∀ (l : List (String × Bed)) (bid : String) (nb : Bed) (k : String),
      k ≠ bid → lookupBed (updateBed l bid nb) k = lookupBed l k := by
  intro l
  induction l with
  | nil => intro bid nb k _; rfl
  | cons hd tl ih =>
    intro bid nb k hk
    obtain ⟨hk2, hb⟩ := hd
    by_cases he : hk2 = bid
    · subst he
      simp only [updateBed, if_pos rfl, lookupBed]
      rw [if_neg (by exact fun h => hk (h.symm ▸ rfl))]
      rw [if_neg (by exact fun h => hk (h.symm ▸ rfl))]
    · simp only [updateBed, if_neg he, lookupBed]
      by_cases hkk : hk2 = k
      · rw [if_pos hkk, if_pos hkk]
      · rw [if_neg hkk, if_neg hkk]
        exact ih bid nb k hk

lemma lookupBed_updateBed_self :
    ∀ (l : List (String × Bed)) (bid : String) (nb b : Bed),
      lookupBed l bid = some b → lookupBed (updateBed l bid nb) bid = some nb := by
  intro l
  induction l with
  | nil => intro bid nb b h; cases h
  | cons hd tl ih =>
    intro bid nb b h
    obtain ⟨hk2, hb⟩ := hd
    by_cases he : hk2 = bid
    · subst he
      simp [updateBed, lookupBed]
    · simp only [updateBed, if_neg he, lookupBed] at h ⊢
      exact ih bid nb b h

lemma bedLookupState_icu (s : HospitalState) (bid : String) (b : Bed)
    (h : lookupBed s.icu_beds bid = some b) :
    bedLookupState s bid = some b := by
  unfold bedLookupState
  rw [h]

lemma bedLookupState_trauma (s : HospitalState) (bid : String)
    (h : lookupBed s.icu_beds bid = none) :
    bedLookupState s bid = lookupBed s.ed_trauma_bays bid := by
  unfold bedLookupState
  rw [h]

lemma bedDept_icu (s : HospitalState) (bid : String) (b : Bed)
    (h : lookupBed s.icu_beds bid = some b) :
    bedDept s bid = some "ICU" := by
  unfold bedDept
  rw [h]

lemma bedDept_trauma (s : HospitalState) (bid : String) (b : Bed)
    (h1 : lookupBed s.icu_beds bid = none)
    (h2 : lookupBed s.ed_trauma_bays bid = some b) :
    bedDept s bid = some "ED_Trauma" := by
  unfold bedDept
  rw [h1, h2]

lemma reserve_bed_eq_icu (s : HospitalState) (bid pname prio t : String) (b : Bed)
    (h : lookupBed s.icu_beds bid = some b) :
    reserve_bed s bid pname prio t =
      if b.status = "reserved" then (.alreadyReserved bid b.patient, s)
      else if b.status = "available" then
        (.success bid "ICU" pname,
         { s with icu_beds := updateBed s.icu_beds bid (reservedBed pname prio t) })
      else (.notAvailable bid b.status, s) := by
  unfold reserve_bed
  rw [h]

lemma reserve_bed_eq_trauma (s : HospitalState) (bid pname prio t : String) (b : Bed)
    (h1 : lookupBed s.icu_beds bid = none)
    (h2 : lookupBed s.ed_trauma_bays bid = some b) :
    reserve_bed s bid pname prio t =
      if b.status = "reserved" then (.alreadyReserved bid b.patient, s)
      else if b.status = "available" then
        (.success bid "ED_Trauma" pname,
         { s with ed_trauma_bays := updateBed s.ed_trauma_bays bid (reservedBed pname prio t) })
      else (.notAvailable bid b.status, s) := by
  unfold reserve_bed
  rw [h1, h2]

lemma reserve_bed_eq_notfound (s : HospitalState) (bid pname prio t : String)
    (h1 : lookupBed s.icu_beds bid = none)
    (h2 : lookupBed s.ed_trauma_bays bid = none) :
    reserve_bed s bid pname prio t = (.notFound bid, s) := by
  unfold reserve_bed
  rw [h1, h2]

/-- Bed `bid` is currently reserved and holds patient `p`. -/
def bedReservedFor (s : HospitalState) (bid p : String) : Prop :=
  ∃ b : Bed, bedLookupState s bid = some b ∧ b.status = "reserved" ∧ b.patient = some p

lemma reserve_bed_step_preserves_reserved (s : HospitalState) (c : BedCall)
    (bid p : String) (h : bedReservedFor s bid p) :
    bedReservedFor (reserve_bed s c.bed_id c.patient_name c.priority c.now).2 bid p := by
  obtain ⟨b, hb, hst, hpat⟩ := h
  cases hI : lookupBed s.icu_beds c.bed_id with
  | some bc =>
    rw [reserve_bed_eq_icu s c.bed_id c.patient_name c.priority c.now bc hI]
    by_cases hres : bc.status = "reserved"
    · rw [if_pos hres]
      exact ⟨b, hb, hst, hpat⟩
    · rw [if_neg hres]
      by_cases hav : bc.status = "available"
      · rw [if_pos hav]
        dsimp only
        by_cases hbid : bid = c.bed_id
        · exfalso
          subst hbid
          rw [bedLookupState_icu s c.bed_id bc hI] at hb
          cases hb
          exact hres hst
        · refine ⟨b, ?_, hst, hpat⟩
          unfold bedLookupState at hb ⊢
          dsimp only
          rw [lookupBed_updateBed_ne s.icu_beds c.bed_id (reservedBed c.patient_name c.priority c.now) bid hbid]
          exact hb
      · rw [if_neg hav]
        exact ⟨b, hb, hst, hpat⟩
  | none =>
    cases hT : lookupBed s.ed_trauma_bays c.bed_id with
    | some bc =>
      rw [reserve_bed_eq_trauma s c.bed_id c.patient_name c.priority c.now bc hI hT]
      by_cases hres : bc.status = "reserved"
      · rw [if_pos hres]
        exact ⟨b, hb, hst, hpat⟩
      · rw [if_neg hres]
        by_cases hav : bc.status = "available"
        · rw [if_pos hav]
          dsimp only
          by_cases hbid : bid = c.bed_id
          · exfalso
            subst hbid
            rw [bedLookupState_trauma s c.bed_id hI, hT] at hb
            cases hb
            exact hres hst
          · refine ⟨b, ?_, hst, hpat⟩
            unfold bedLookupState at hb ⊢
            dsimp only
            rw [lookupBed_updateBed_ne s.ed_trauma_bays c.bed_id (reservedBed c.patient_name c.priority c.now) bid hbid]
            exact hb
        · rw [if_neg hav]
          exact ⟨b, hb, hst, hpat⟩
    | none =>
      rw [reserve_bed_eq_notfound s c.bed_id c.patient_name c.priority c.now hI hT]
      exact ⟨b, hb, hst, hpat⟩

lemma applyBedCalls_preserves_reserved :
    ∀ (calls : List BedCall) (s : HospitalState) (bid p : String),
      bedReservedFor s bid p → bedReservedFor (applyBedCalls s calls) bid p := by
  intro calls
  induction calls with
  | nil => intro s bid p h; exact h
  | cons c rest ih =>
    intro s bid p h
    show bedReservedFor (applyBedCalls (reserve_bed s c.bed_id c.patient_name c.priority c.now).2 rest) bid p
    exact ih _ bid p (reserve_bed_step_preserves_reserved s c bid p h)

/-- C1: `reserve_bed` transitions a bed to reserved for the calling
patient only when the bed is currently available: an already-reserved bed
fails reporting the current holder, any other non-available status fails
as not available, an unknown bed id fails as not found, every failing call
leaves the state unchanged, a successful call records exactly the calling
patient on that bed and touches no other bed, and once a bed is reserved
for a patient no later sequence of `reserve_bed` calls can change or
overwrite that association. -/
theorem reserve_bed_exclusive (s : HospitalState) (bid pname prio t : String) :
    (∀ b : Bed, bedLookupState s bid = some b → b.status = "reserved" →
      (reserve_bed s bid pname prio t).1 = .alreadyReserved bid b.patient
      ∧ (reserve_bed s bid pname prio t).2 = s)
    ∧ (∀ b : Bed, bedLookupState s bid = some b → b.status ≠ "reserved" →
        b.status ≠ "available" →
      (reserve_bed s bid pname prio t).1 = .notAvailable bid b.status
      ∧ (reserve_bed s bid pname prio t).2 = s)
    ∧ (bedLookupState s bid = none →
      (reserve_bed s bid pname prio t).1 = .notFound bid
      ∧ (reserve_bed s bid pname prio t).2 = s)
    ∧ (∀ b : Bed, bedLookupState s bid = some b → b.status = "available" →
      (reserve_bed s bid pname prio t).1
          = .success bid ((bedDept s bid).getD "") pname
      ∧ bedLookupState (reserve_bed s bid pname prio t).2 bid
          = some (reservedBed pname prio t)
      ∧ (∀ k, k ≠ bid →
          bedLookupState (reserve_bed s bid pname prio t).2 k = bedLookupState s k))
    ∧ (∀ d p2, (reserve_bed s bid pname prio t).1 = .success bid d p2 →
        (∃ b : Bed, bedLookupState s bid = some b ∧ b.status = "available") ∧ p2 = pname)
    ∧ (∀ (p : String) (calls : List BedCall), bedReservedFor s bid p →
        bedReservedFor (applyBedCalls s calls) bid p) := by
  refine ⟨?_, ?_, ?_, ?_, ?_, ?_⟩
  · intro b hb hres
    cases hI : lookupBed s.icu_beds bid with
    | some bi =>
      rw [bedLookupState_icu s bid bi hI] at hb
      cases hb
      rw [reserve_bed_eq_icu s bid pname prio t b hI, if_pos hres]
      exact ⟨rfl, rfl⟩
    | none =>
      rw [bedLookupState_trauma s bid hI] at hb
      rw [reserve_bed_eq_trauma s bid pname prio t b hI hb, if_pos hres]
      exact ⟨rfl, rfl⟩
  · intro b hb hres hav
    cases hI : lookupBed s.icu_beds bid with
    | some bi =>
      rw [bedLookupState_icu s bid bi hI] at hb
      cases hb
      rw [reserve_bed_eq_icu s bid pname prio t b hI, if_neg hres, if_neg hav]
      exact ⟨rfl, rfl⟩
    | none =>
      rw [bedLookupState_trauma s bid hI] at hb
      rw [reserve_bed_eq_trauma s bid pname prio t b hI hb, if_neg hres, if_neg hav]
      exact ⟨rfl, rfl⟩
  · intro hb
    cases hI : lookupBed s.icu_beds bid with
    | some bi =>
      rw [bedLookupState_icu s bid bi hI] at hb
      cases hb
    | none =>
      rw [bedLookupState_trauma s bid hI] at hb
      rw [reserve_bed_eq_notfound s bid pname prio t hI hb]
      exact ⟨rfl, rfl⟩
  · intro b hb hav
    have hres : ¬ b.status = "reserved" := by
      rw [hav]
      decide
    cases hI : lookupBed s.icu_beds bid with
    | some bi =>
      rw [bedLookupState_icu s bid bi hI] at hb
      cases hb
      rw [reserve_bed_eq_icu s bid pname prio t b hI, if_neg hres, if_pos hav,
        bedDept_icu s bid b hI]
      dsimp only
      refine ⟨rfl, ?_, ?_⟩
      · exact bedLookupState_icu _ bid _
          (lookupBed_updateBed_self s.icu_beds bid (reservedBed pname prio t) b hI)
      · intro k hk
        unfold bedLookupState
        dsimp only
        rw [lookupBed_updateBed_ne s.icu_beds bid (reservedBed pname prio t) k hk]
    | none =>
      rw [bedLookupState_trauma s bid hI] at hb
      rw [reserve_bed_eq_trauma s bid pname prio t b hI hb, if_neg hres, if_pos hav,
        bedDept_trauma s bid b hI hb]
      dsimp only
      refine ⟨rfl, ?_, ?_⟩
      · refine Eq.trans (bedLookupState_trauma _ bid ?_) ?_
        · exact hI
        · exact lookupBed_updateBed_self s.ed_trauma_bays bid (reservedBed pname prio t) b hb
      · intro k hk
        unfold bedLookupState
        dsimp only
        rw [lookupBed_updateBed_ne s.ed_trauma_bays bid (reservedBed pname prio t) k hk]
  · intro d p2 hsucc
    cases hI : lookupBed s.icu_beds bid with
    | some bi =>
      rw [reserve_bed_eq_icu s bid pname prio t bi hI] at hsucc
      by_cases hres : bi.status = "reserved"
      · rw [if_pos hres] at hsucc
        cases hsucc
      · rw [if_neg hres] at hsucc
        by_cases hav : bi.status = "available"
        · rw [if_pos hav] at hsucc
          cases hsucc
          exact ⟨⟨bi, bedLookupState_icu s bid bi hI, hav⟩, rfl⟩
        · rw [if_neg hav] at hsucc
          cases hsucc
    | none =>
      cases hT : lookupBed s.ed_trauma_bays bid with
      | some bt =>
        rw [reserve_bed_eq_trauma s bid pname prio t bt hI hT] at hsucc
        by_cases hres : bt.status = "reserved"
        · rw [if_pos hres] at hsucc
          cases hsucc
        · rw [if_neg hres] at hsucc
          by_cases hav : bt.status = "available"
          · rw [if_pos hav] at hsucc
            cases hsucc
            refine ⟨⟨bt, ?_, hav⟩, rfl⟩
            rw [bedLookupState_trauma s bid hI]
            exact hT
          · rw [if_neg hav] at hsucc
            cases hsucc
      | none =>
        rw [reserve_bed_eq_notfound s bid pname prio t hI hT] at hsucc
        cases hsucc
  · intro p calls h
    exact applyBedCalls_preserves_reserved calls s bid p h

/-- Witness for C1: on the initial state, bed ICU-3 is available; reserving
it for patient P100 succeeds in department ICU and records exactly that
patient on the bed. -/
theorem reserve_bed_exclusive_witness :
    bedLookupState initialHospitalState "ICU-3" = some ⟨"available", none, none, none, none⟩
    ∧ (reserve_bed initialHospitalState "ICU-3" "P100" "CRITICAL" "T0").1
        = ReserveBedResult.success "ICU-3" ((bedDept initialHospitalState "ICU-3").getD "") "P100"
    ∧ bedLookupState (reserve_bed initialHospitalState "ICU-3" "P100" "CRITICAL" "T0").2 "ICU-3"
        = some (reservedBed "P100" "CRITICAL" "T0") := by
  have h := (reserve_bed_exclusive initialHospitalState "ICU-3" "P100" "CRITICAL" "T0").2.2.2.1
    ⟨"available", none, none, none, none⟩ rfl rfl
  exact ⟨rfl, h.1, h.2.1⟩

/-- Witness for C10: the unknown equipment type "mri" is absent from the
initial inventory and yields the all-zero, all-in-use report. -/
theorem check_equipment_total_on_strings_witness :
    lookupEquip initialHospitalState.equipment "mri" = none
    ∧ check_equipment initialHospitalState.equipment "mri"
        = { equipment_type := "mri", available := 0, total := 0, in_use := 0,
            utilization_rate := 0, status := "all_in_use" } := by
  have h := check_equipment_total_on_strings initialHospitalState.equipment "mri"
  exact ⟨rfl, h.1 rfl⟩

lemma sevMax_none_right (a : ConflictSeverity) : sevMax a .NONE = a := by
  cases a <;> decide

lemma sevMax_guard_crit (st : ConflictSeverity) :
    ConflictSeverity.CRITICAL = sevMax st .CRITICAL := by
  cases st <;> decide

lemma sevMax_guard_high1 (st : ConflictSeverity) :
    (if st ≠ .CRITICAL then ConflictSeverity.HIGH else st) = sevMax st .HIGH := by
  cases st <;> decide

lemma sevMax_guard_high2 (st : ConflictSeverity) :
    (if st ≠ .CRITICAL ∧ st ≠ .HIGH then ConflictSeverity.HIGH else st) = sevMax st .HIGH := by
  cases st <;> decide

lemma sevMax_guard_moderate (st : ConflictSeverity) :
    (if st = .NONE then ConflictSeverity.MODERATE else st) = sevMax st .MODERATE := by
  cases st <;> decide

lemma icuStage_eq (s : HospitalState) :
    (icuStage s).1.map Conflict.severity = sevListOf (icuRuleSeverity s)
    ∧ (icuStage s).2 = sevMax .NONE (icuRuleSeverity s) := by
  unfold icuStage icuRuleSeverity
  by_cases h1 : icuOccupancyPct s ≥ 90
  · rw [if_pos h1, if_pos h1]
    exact ⟨rfl, by decide⟩
  · rw [if_neg h1, if_neg h1]
    by_cases h2 : icuOccupancyPct s ≥ 75
    · rw [if_pos h2, if_pos h2]
      exact ⟨rfl, by decide⟩
    · rw [if_neg h2, if_neg h2]
      exact ⟨rfl, by decide⟩

lemma traumaStage_eq (s : HospitalState) (st : List Conflict × ConflictSeverity) :
    (traumaStage s st).1.map Conflict.severity
      = st.1.map Conflict.severity ++ sevListOf (traumaRuleSeverity s)
    ∧ (traumaStage s st).2 = sevMax st.2 (traumaRuleSeverity s) := by
  unfold traumaStage traumaRuleSeverity
  by_cases h : countAvailable s.ed_trauma_bays = 0
  · rw [if_pos h, if_pos h]
    exact ⟨by simp [sevListOf], sevMax_guard_high2 st.2⟩
  · rw [if_neg h, if_neg h]
    exact ⟨by simp [sevListOf], (sevMax_none_right st.2).symm⟩

lemma physicianStage_eq (s : HospitalState) (st : List Conflict × ConflictSeverity) :
    (physicianStage s st).1.map Conflict.severity
      = st.1.map Conflict.severity ++ sevListOf (physicianRuleSeverity s)
    ∧ (physicianStage s st).2 = sevMax st.2 (physicianRuleSeverity s) := by
  unfold physicianStage physicianRuleSeverity
  by_cases h : s.ed_physicians.filter (fun p => 5 ≤ p.current_load) ≠ []
  · rw [if_pos h, if_pos h]
    exact ⟨by simp [sevListOf], sevMax_guard_moderate st.2⟩
  · rw [if_neg h, if_neg h]
    exact ⟨by simp [sevListOf], (sevMax_none_right st.2).symm⟩

lemma ventilatorStage_eq (s : HospitalState) (st : List Conflict × ConflictSeverity) :
    (ventilatorStage s st).1.map Conflict.severity
      = st.1.map Conflict.severity ++ sevListOf (ventilatorRuleSeverity s)
    ∧ (ventilatorStage s st).2 = sevMax st.2 (ventilatorRuleSeverity s) := by
  unfold ventilatorStage ventilatorRuleSeverity
  by_cases h0 : s.equipment.ventilators.available = 0
  · rw [if_pos h0, if_pos h0]
    exact ⟨by simp [sevListOf], sevMax_guard_crit st.2⟩
  · rw [if_neg h0, if_neg h0]
    by_cases h1 : s.equipment.ventilators.available ≤ 1
    · rw [if_pos h1, if_pos h1]
      exact ⟨by simp [sevListOf], sevMax_guard_high1 st.2⟩
    · rw [if_neg h1, if_neg h1]
      exact ⟨by simp [sevListOf], (sevMax_none_right st.2).symm⟩

lemma specTriggeredSeverities_decomp (s : HospitalState)
    (hvent : 0 ≤ s.equipment.ventilators.available) :
    specTriggeredSeverities s
      = sevListOf (icuRuleSeverity s) ++ sevListOf (traumaRuleSeverity s)
        ++ sevListOf (physicianRuleSeverity s) ++ sevListOf (ventilatorRuleSeverity s) := by
  unfold specTriggeredSeverities icuRuleSeverity traumaRuleSeverity physicianRuleSeverity
    ventilatorRuleSeverity
  by_cases h1 : icuOccupancyPct s ≥ 90 <;>
    by_cases h2 : icuOccupancyPct s ≥ 75 <;>
    by_cases h3 : countAvailable s.ed_trauma_bays = 0 <;>
    by_cases h4 : s.ed_physicians.filter (fun p => 5 ≤ p.current_load) ≠ [] <;>
    by_cases h5 : s.equipment.ventilators.available = 0 <;>
    by_cases h6 : s.equipment.ventilators.available ≤ 1 <;>
    first
      | omega
      | (have h7 : s.equipment.ventilators.available = 1 := by omega
         simp [h1, h2, h3, h4, h5, h6, h7, sevListOf])
      | (have h7 : ¬ s.equipment.ventilators.available = 1 := by omega
         simp [h1, h2, h3, h4, h5, h6, h7, sevListOf])

lemma foldr_sevMax_four (a b c d : ConflictSeverity) :
    ((sevListOf a ++ sevListOf b ++ sevListOf c ++ sevListOf d).foldr sevMax .NONE)
      = sevMax (sevMax (sevMax (sevMax .NONE a) b) c) d := by
  cases a <;> cases b <;> cases c <;> cases d <;> decide

lemma requires_intervention_iff (a : ConflictSeverity) :
    (decide (a = .CRITICAL ∨ a = .HIGH) = true) ↔ (a = .HIGH ∨ a = .CRITICAL) := by
  cases a <;> decide

/-- C4: `detect_resource_conflicts` reports as overall severity the
maximum severity over the triggered rules (ICU occupancy ≥ 90 → CRITICAL,
≥ 75 → HIGH; zero available trauma bays → HIGH; a physician with load ≥ 5
→ MODERATE; zero ventilators → CRITICAL, exactly one → HIGH; nothing
triggered → NONE), each triggered rule contributes exactly one conflict
record, and `requires_intervention` holds exactly when the overall
severity is HIGH or CRITICAL.  The hypotheses record that the state is one
the Python code can process: a nonempty ICU bed dict (the occupancy
division) and a nonnegative ventilator count. -/
theorem detect_resource_conflicts_max_severity (s : HospitalState)
    (_hicu : s.icu_beds ≠ [])
    (hvent : 0 ≤ s.equipment.ventilators.available) :
    (detect_resource_conflicts s).severity
        = (specTriggeredSeverities s).foldr sevMax .NONE
    ∧ (detect_resource_conflicts s).conflicts.map Conflict.severity
        = specTriggeredSeverities s
    ∧ (detect_resource_conflicts s).conflict_count
        = (specTriggeredSeverities s).length
    ∧ ((detect_resource_conflicts s).requires_intervention = true
        ↔ ((detect_resource_conflicts s).severity = .HIGH
            ∨ (detect_resource_conflicts s).severity = .CRITICAL)) := by
  have hI := icuStage_eq s
  have hT := traumaStage_eq s (icuStage s)
  have hP := physicianStage_eq s (traumaStage s (icuStage s))
  have hV := ventilatorStage_eq s (physicianStage s (traumaStage s (icuStage s)))
  have hmap : (detect_resource_conflicts s).conflicts.map Conflict.severity
      = sevListOf (icuRuleSeverity s) ++ sevListOf (traumaRuleSeverity s)
        ++ sevListOf (physicianRuleSeverity s) ++ sevListOf (ventilatorRuleSeverity s) := by
    show (ventilatorStage s (physicianStage s (traumaStage s (icuStage s)))).1.map Conflict.severity = _
    rw [hV.1, hP.1, hT.1, hI.1]
  have hsev : (detect_resource_conflicts s).severity
      = sevMax (sevMax (sevMax (sevMax .NONE (icuRuleSeverity s)) (traumaRuleSeverity s))
          (physicianRuleSeverity s)) (ventilatorRuleSeverity s) := by
    show (ventilatorStage s (physicianStage s (traumaStage s (icuStage s)))).2 = _
    rw [hV.2, hP.2, hT.2, hI.2]
  refine ⟨?_, ?_, ?_, ?_⟩
  · rw [hsev, specTriggeredSeverities_decomp s hvent, foldr_sevMax_four]
  · rw [hmap, specTriggeredSeverities_decomp s hvent]
  · have hlen := congrArg List.length hmap
    rw [List.length_map] at hlen
    rw [specTriggeredSeverities_decomp s hvent]
    exact hlen
  · exact requires_intervention_iff _

/-- Witness for C4: the initial hospital state satisfies both validity
hypotheses and the detector's report obeys the max-severity law there. -/
theorem detect_resource_conflicts_max_severity_witness :
    initialHospitalState.icu_beds ≠ []
    ∧ (0 : Int) ≤ initialHospitalState.equipment.ventilators.available
    ∧ ((detect_resource_conflicts initialHospitalState).severity
        = (specTriggeredSeverities initialHospitalState).foldr sevMax .NONE
      ∧ (detect_resource_conflicts initialHospitalState).conflicts.map Conflict.severity
          = specTriggeredSeverities initialHospitalState
      ∧ (detect_resource_conflicts initialHospitalState).conflict_count
          = (specTriggeredSeverities initialHospitalState).length
      ∧ ((detect_resource_conflicts initialHospitalState).requires_intervention = true
          ↔ ((detect_resource_conflicts initialHospitalState).severity = .HIGH
              ∨ (detect_resource_conflicts initialHospitalState).severity = .CRITICAL))) :=
  ⟨by decide, by decide,
   detect_resource_conflicts_max_severity initialHospitalState (by decide) (by decide)⟩

lemma foldl_min_spec :
    ∀ (xs : List Int) (a : Int),
      (xs.foldl min a = a ∨ xs.foldl min a ∈ xs)
      ∧ xs.foldl min a ≤ a
      ∧ ∀ l ∈ xs, xs.foldl min a ≤ l := by
  intro xs
  induction xs with
  | nil =>
    intro a
    exact ⟨Or.inl rfl, le_refl a, by simp⟩
  | cons x rest ih =>
    intro a
    simp only [List.foldl_cons]
    obtain ⟨hmem, hle, hall⟩ := ih (min a x)
    refine ⟨?_, ?_, ?_⟩
    · rcases hmem with h | h
      · rw [h]
        rcases min_choice a x with hm | hm
        · exact Or.inl hm
        · exact Or.inr (by rw [hm]; exact List.mem_cons_self x rest)
      · exact Or.inr (List.mem_cons_of_mem x h)
    · exact le_trans hle (min_le_left a x)
    · intro l hl
      rcases List.mem_cons.mp hl with rfl | hl2
      · exact le_trans hle (min_le_right a l)
      · exact hall l hl2

lemma foldl_max_spec :
    ∀ (xs : List Int) (a : Int),
      (xs.foldl max a = a ∨ xs.foldl max a ∈ xs)
      ∧ a ≤ xs.foldl max a
      ∧ ∀ l ∈ xs, l ≤ xs.foldl max a := by
  intro xs
  induction xs with
  | nil =>
    intro a
    exact ⟨Or.inl rfl, le_refl a, by simp⟩
  | cons x rest ih =>
    intro a
    simp only [List.foldl_cons]
    obtain ⟨hmem, hle, hall⟩ := ih (max a x)
    refine ⟨?_, ?_, ?_⟩
    · rcases hmem with h | h
      · rw [h]
        rcases max_choice a x with hm | hm
        · exact Or.inl hm
        · exact Or.inr (by rw [hm]; exact List.mem_cons_self x rest)
      · exact Or.inr (List.mem_cons_of_mem x h)
    · exact le_trans (le_max_left a x) hle
    · intro l hl
      rcases List.mem_cons.mp hl with rfl | hl2
      · exact le_trans (le_max_right a l) hle
      · exact hall l hl2

lemma listMinD_spec (xs : List Int) (h : xs ≠ []) :
    listMinD 0 xs ∈ xs ∧ ∀ l ∈ xs, listMinD 0 xs ≤ l := by
  cases xs with
  | nil => exact absurd rfl h
  | cons x rest =>
    obtain ⟨hmem, hle, hall⟩ := foldl_min_spec rest x
    refine ⟨?_, ?_⟩
    · rcases hmem with h2 | h2
      · rw [listMinD, h2]
        exact List.mem_cons_self x rest
      · exact List.mem_cons_of_mem x (by rw [listMinD]; exact h2)
    · intro l hl
      rcases List.mem_cons.mp hl with rfl | hl2
      · exact hle
      · exact hall l hl2

lemma listMaxD_spec (xs : List Int) (h : xs ≠ []) :
    listMaxD 0 xs ∈ xs ∧ ∀ l ∈ xs, l ≤ listMaxD 0 xs := by
  cases xs with
  | nil => exact absurd rfl h
  | cons x rest =>
    obtain ⟨hmem, hle, hall⟩ := foldl_max_spec rest x
    refine ⟨?_, ?_⟩
    · rcases hmem with h2 | h2
      · rw [listMaxD, h2]
        exact List.mem_cons_self x rest
      · exact List.mem_cons_of_mem x (by rw [listMaxD]; exact h2)
    · intro l hl
      rcases List.mem_cons.mp hl with rfl | hl2
      · exact hle
      · exact hall l hl2

lemma mem_availableIds (l : List (String × Bed)) (bid : String) :
    bid ∈ availableIds l ↔ ∃ b : Bed, (bid, b) ∈ l ∧ b.status = "available" := by
  unfold availableIds
  simp only [List.mem_map, List.mem_filter]
  constructor
  · rintro ⟨⟨k, b⟩, ⟨hm, hs⟩, rfl⟩
    exact ⟨b, hm, by simpa using hs⟩
  · rintro ⟨b, hm, hs⟩
    exact ⟨(bid, b), ⟨hm, by simpa using hs⟩, rfl⟩

lemma shortage_mem_of_lookup (e : Equipment) (ty : String) (p : Pool)
    (hp : lookupEquip e ty = some p) :
    ty ∈ (equipmentShortages e).map ShortageEntry.equip_type
      ↔ (p.available = 0 ∨ utilizationPct p ≥ 80) := by
  unfold lookupEquip at hp
  unfold equipmentShortages shortageEntryFor
  split_ifs at hp with h1 h2 h3
  · cases hp
    subst h1
    split_ifs <;> simp_all
  · cases hp
    subst h2
    split_ifs <;> simp_all
  · cases hp
    subst h3
    split_ifs <;> simp_all

lemma shortage_not_mem_of_unknown (e : Equipment) (ty : String)
    (hp : lookupEquip e ty = none) :
    ty ∉ (equipmentShortages e).map ShortageEntry.equip_type := by
  unfold lookupEquip at hp
  unfold equipmentShortages shortageEntryFor
  split_ifs at hp with h1 h2 h3
  split_ifs <;> simp_all

/-- C8 (amended): `get_hospital_state` includes exactly the sections its
filter selects, for the recognized filter values `beds_only`,
`staff_only`, `equipment_only`, `full_state` and the absent filter (the
source's full-snapshot spelling is `full_state`, not `full`): the beds
section carries the free and occupied bed id lists with their counts, the
staff section carries the physician workload summary whose `least_busy` /
`most_busy` are the minimum / maximum physician load and whose
`average_load` is the mean, and the equipment section carries the
equipment counts verbatim plus a shortage list holding exactly the
equipment types that are fully exhausted or at ≥ 80% utilization. -/
theorem get_hospital_state_filters (s : HospitalState) (f : Option String)
    (_hicu : s.icu_beds ≠ []) (hphys : s.ed_physicians ≠ []) :
    ((get_hospital_state s f).beds.isSome = true
        ↔ (f = none ∨ f = some "beds_only" ∨ f = some "full_state"))
    ∧ ((get_hospital_state s f).staff.isSome = true
        ↔ (f = none ∨ f = some "staff_only" ∨ f = some "full_state"))
    ∧ ((get_hospital_state s f).equipment.isSome = true
        ↔ (f = none ∨ f = some "equipment_only" ∨ f = some "full_state"))
    ∧ ((get_hospital_state s f).equipment_shortages.isSome = true
        ↔ (f = none ∨ f = some "equipment_only" ∨ f = some "full_state"))
    ∧ (∀ bs, (get_hospital_state s f).beds = some bs →
        bs.icu.available = availableIds s.icu_beds
        ∧ bs.icu.available_count = (availableIds s.icu_beds).length
        ∧ bs.icu.occupied = occupiedOrReservedIds s.icu_beds
        ∧ bs.icu.occupied_count = (occupiedOrReservedIds s.icu_beds).length
        ∧ bs.trauma_bays.available = availableIds s.ed_trauma_bays
        ∧ bs.trauma_bays.occupied = occupiedOrReservedIds s.ed_trauma_bays
        ∧ bs.ed_treatment = s.ed_treatment_rooms
        ∧ (∀ bid, bid ∈ bs.icu.available
            ↔ ∃ b : Bed, (bid, b) ∈ s.icu_beds ∧ b.status = "available"))
    ∧ (∀ ss, (get_hospital_state s f).staff = some ss →
        ss.physicians = s.ed_physicians
        ∧ (ss.physician_workload_summary.least_busy
              ∈ s.ed_physicians.map Physician.current_load
          ∧ ∀ l ∈ s.ed_physicians.map Physician.current_load,
              ss.physician_workload_summary.least_busy ≤ l)
        ∧ (ss.physician_workload_summary.most_busy
              ∈ s.ed_physicians.map Physician.current_load
          ∧ ∀ l ∈ s.ed_physicians.map Physician.current_load,
              l ≤ ss.physician_workload_summary.most_busy)
        ∧ ss.physician_workload_summary.average_load
            = (((s.ed_physicians.map Physician.current_load).sum : Int) : ℚ)
                / (s.ed_physicians.length : ℚ))
    ∧ (∀ eq, (get_hospital_state s f).equipment = some eq → eq = s.equipment)
    ∧ (∀ sh, (get_hospital_state s f).equipment_shortages = some sh →
        (∀ ty p, lookupEquip s.equipment ty = some p →
          (ty ∈ sh.map ShortageEntry.equip_type
            ↔ (p.available = 0 ∨ utilizationPct p ≥ 80)))
        ∧ (∀ ty, lookupEquip s.equipment ty = none →
            ty ∉ sh.map ShortageEntry.equip_type)) := by
  have hloads : s.ed_physicians.map Physician.current_load ≠ [] := by
    intro hcon
    exact hphys (List.map_eq_nil_iff.mp hcon)
  refine ⟨?_, ?_, ?_, ?_, ?_, ?_, ?_, ?_⟩
  · unfold get_hospital_state
    by_cases h : f = none ∨ f = some "beds_only" ∨ f = some "full_state" <;> simp [h]
  · unfold get_hospital_state
    by_cases h : f = none ∨ f = some "staff_only" ∨ f = some "full_state" <;> simp [h]
  · unfold get_hospital_state
    by_cases h : f = none ∨ f = some "equipment_only" ∨ f = some "full_state" <;> simp [h]
  · unfold get_hospital_state
    by_cases h : f = none ∨ f = some "equipment_only" ∨ f = some "full_state" <;> simp [h]
  · intro bs hbs
    simp only [get_hospital_state] at hbs
    by_cases h : f = none ∨ f = some "beds_only" ∨ f = some "full_state"
    · rw [if_pos h] at hbs
      cases hbs
      refine ⟨rfl, rfl, rfl, rfl, rfl, rfl, rfl, ?_⟩
      intro bid
      exact mem_availableIds s.icu_beds bid
    · rw [if_neg h] at hbs
      cases hbs
  · intro ss hss
    simp only [get_hospital_state] at hss
    by_cases h : f = none ∨ f = some "staff_only" ∨ f = some "full_state"
    · rw [if_pos h] at hss
      cases hss
      obtain ⟨hminm, hminl⟩ := listMinD_spec (s.ed_physicians.map Physician.current_load) hloads
      obtain ⟨hmaxm, hmaxl⟩ := listMaxD_spec (s.ed_physicians.map Physician.current_load) hloads
      exact ⟨rfl, ⟨hminm, hminl⟩, ⟨hmaxm, hmaxl⟩, rfl⟩
    · rw [if_neg h] at hss
      cases hss
  · intro eq heq
    simp only [get_hospital_state] at heq
    by_cases h : f = none ∨ f = some "equipment_only" ∨ f = some "full_state"
    · rw [if_pos h] at heq
      cases heq
      rfl
    · rw [if_neg h] at heq
      cases heq
  · intro sh hsh
    simp only [get_hospital_state] at hsh
    by_cases h : f = none ∨ f = some "equipment_only" ∨ f = some "full_state"
    · rw [if_pos h] at hsh
      cases hsh
      exact ⟨fun ty p hp => shortage_mem_of_lookup s.equipment ty p hp,
             fun ty hp => shortage_not_mem_of_unknown s.equipment ty hp⟩
    · rw [if_neg h] at hsh
      cases hsh

/-- Witness for C8: on the initial state, the recognized filter value
`full_state` yields a snapshot with all four sections present. -/
theorem get_hospital_state_filters_witness :
    initialHospitalState.icu_beds ≠ []
    ∧ initialHospitalState.ed_physicians ≠ []
    ∧ (get_hospital_state initialHospitalState (some "full_state")).beds.isSome = true
    ∧ (get_hospital_state initialHospitalState (some "full_state")).staff.isSome = true
    ∧ (get_hospital_state initialHospitalState (some "full_state")).equipment.isSome = true
    ∧ (get_hospital_state initialHospitalState (some "full_state")).equipment_shortages.isSome = true := by
  have h := get_hospital_state_filters initialHospitalState (some "full_state")
    (by decide) (by decide)
  exact ⟨by decide, by decide,
    h.1.mpr (Or.inr (Or.inr rfl)),
    h.2.1.mpr (Or.inr (Or.inr rfl)),
    h.2.2.1.mpr (Or.inr (Or.inr rfl)),
    h.2.2.2.1.mpr (Or.inr (Or.inr rfl))⟩

/-- Counterexample to C8 as stated: the claim (following the spec) says
the filter value `full` returns the complete snapshot, but the source only
recognizes `full_state`: with filter `full` the returned snapshot contains
no beds, staff, equipment or shortage section at all. -/
theorem get_hospital_state_full_counterexample :
    (get_hospital_state initialHospitalState (some "full")).beds = none
    ∧ (get_hospital_state initialHospitalState (some "full")).staff = none
    ∧ (get_hospital_state initialHospitalState (some "full")).equipment = none
    ∧ (get_hospital_state initialHospitalState (some "full")).equipment_shortages = none := by
  refine ⟨?_, ?_, ?_, ?_⟩ <;> rfl

/-- Counterexample to C7 as stated: two invocations on the identical input
(age 30, normal vitals, no symptoms) at different clock readings return
different dicts — the `calculation_time` field differs, so not every field
of the returned assessment is equal across the two runs. -/
theorem calculate_clinical_score_time_dependent :
    calculate_clinical_score 30 ⟨some 80, some 120, some 98⟩ [] "2024-10-30T08:00:00"
      ≠ calculate_clinical_score 30 ⟨some 80, some 120, some 98⟩ [] "2024-10-30T08:00:01" := by
  decide
